import Mathlib

/-!
Shallow embedding of the Flask/InfluxDB sample application (`src/app.py`).

The application is a multi-tenant gateway in front of InfluxDB.  Its handlers
(`ingest`, `query`, `visualize`, `tasks`, `monitor`) and the helper
`find_or_create_bucket` are embedded below as pure Lean functions.  The
external collaborator (the InfluxDB engine) is represented by explicit
parameters: the outcome of the write call, the response of the task-creation
REST call, the usage tables and task inventory returned by queries, and — for
the bucket lifecycle — an explicit engine state holding the bucket list and a
permission flag, with the lookup/create operations behaving as the
collaborator interface specifies (findBucketByName returns the bucket or a
404 ApiException, 401 when the token lacks permission; createBucket adds a
bucket with the default retention policy).
-/

namespace InfluxApp

/-- Scalar JSON values as delivered in request bodies.  The sample app only
ever reads scalar attributes from its flat JSON bodies; numbers are modelled
as integers since the app never computes with them. -/
inductive Json where
  | null
  | bool (b : Bool)
  | num (n : Int)
  | str (s : String)
  deriving Repr, DecidableEq

/-- A JSON object body, as an association list. -/
abbrev JsonObj := List (String × Json)

/-- `request.json[k]`: dictionary access; raises `KeyError k` when the key is
absent (uncaught in the handlers, so the framework answers 500). -/
def jsonLookup (body : JsonObj) (k : String) : Except String Json :=
  match body.find? (fun kv => kv.1 == k) with
  | some kv => Except.ok kv.2
  | none => Except.error k

/-- Python `str()` on a scalar JSON value, as applied by `"...".format(...)`. -/
def pyStr : Json → String
  | Json.null => "None"
  | Json.bool true => "True"
  | Json.bool false => "False"
  | Json.num n => toString n
  | Json.str s => s

/-- Environment-supplied configuration (`INFLUXDB_ORGANIZATION`,
`INFLUXDB_HOST`, `INFLUXDB_TOKEN`). -/
structure Config where
  organization_name : String
  host : String
  token : String
  deriving Repr, DecidableEq

/-- `bucket_name = "raw_data_bucket"` (module-level constant in `app.py`). -/
def bucket_name : String := "raw_data_bucket"

/-- `WritePrecision` as used by the app (only `NS` appears). -/
inductive WritePrecision where
  | NS
  deriving Repr, DecidableEq

/-- An InfluxDB `Point` as built by the `ingest` handler: one measurement, a
field list, a tag list, a timestamp (UTC, nanoseconds) and its precision. -/
structure Point where
  measurement : Json
  fields : List (String × Json)
  tags : List (String × Json)
  time : Nat
  precision : WritePrecision
  deriving Repr, DecidableEq

/-- The point construction in `ingest`:
`Point(measurement).field("field1", value).tag("user_id", user_id).time(datetime.utcnow(), WritePrecision.NS)`. -/
def buildPoint (measurement value user_id : Json) (now : Nat) : Point :=
  { measurement := measurement
    fields := [("field1", value)]
    tags := [("user_id", user_id)]
    time := now
    precision := WritePrecision.NS }

/-- The arguments of the `write_api.write(bucket_name, organization_name, point)` call. -/
structure WriteCall where
  bucket : String
  org : String
  point : Point
  deriving Repr, DecidableEq

/-- Outcome of the collaborator write: success, or an `InfluxDBError` whose
`e.response.status` the handler compares against the strings "401"/"404". -/
inductive WriteOutcome where
  | success
  | influxError (status : String)
  deriving Repr, DecidableEq

/-- What the `ingest` handler hands back to the framework. -/
inductive IngestResponse where
  /-- `(\x7b"result": "data accepted for processing"\x7d, 200)` -/
  | resultOk
  /-- `(\x7b"error": msg\x7d, e.response.status)` -/
  | errorResp (msg : String) (status : String)
  /-- the function falls off its end and returns `None` (no response) -/
  | noResponse
  deriving Repr, DecidableEq

/-- The `/ingest` handler: reads `user_id`, `measurement`, `field1` from the
body (KeyError when absent), builds the point, writes it, and maps the write
outcome exactly as the two `if` tests in the source do.  Returns the write
call it issued together with the response value. -/
def ingest (cfg : Config) (body : JsonObj) (wr : WriteOutcome) (now : Nat) :
    Except String (WriteCall × IngestResponse) :=
  match jsonLookup body "user_id" with
  | Except.error k => Except.error k
  | Except.ok user_id =>
    match jsonLookup body "measurement" with
    | Except.error k => Except.error k
    | Except.ok measurement =>
      match jsonLookup body "field1" with
      | Except.error k => Except.error k
      | Except.ok value =>
        let point := buildPoint measurement value user_id now
        let call : WriteCall := ⟨bucket_name, cfg.organization_name, point⟩
        match wr with
        | WriteOutcome.success => Except.ok (call, IngestResponse.resultOk)
        | WriteOutcome.influxError s =>
          if s = "401" then
            Except.ok (call, IngestResponse.errorResp "Insufficent permissions" s)
          else if s = "404" then
            Except.ok (call, IngestResponse.errorResp ("Bucket " ++ bucket_name ++ " does not exist") s)
          else
            Except.ok (call, IngestResponse.noResponse)

/-- The constant Flux text used by `/query` and `/visualize`; `bucket_name`
and `user_id` inside it are parameter references, not interpolated values. -/
def query_flux : String :=
  "from(bucket: bucket_name) |> range(start: -1h) |> filter(fn: (r) => r.user_id == user_id)"

/-- The arguments of a `query_api.query(query, org, params)` call. -/
structure QueryCall where
  flux : String
  org : String
  params : List (String × Json)
  deriving Repr, DecidableEq

/-- The `/query` handler: reads `user_id` (KeyError when absent, before any
query is issued), then issues the constant parameter-bound query and answers
200 with the encoded tables. -/
def queryHandler (cfg : Config) (body : JsonObj) : Except String (QueryCall × Nat) :=
  match jsonLookup body "user_id" with
  | Except.error k => Except.error k
  | Except.ok user_id =>
    Except.ok
      ({ flux := query_flux
         org := cfg.organization_name
         params := [("bucket_name", Json.str bucket_name), ("user_id", user_id)] }, 200)

/-- `request.args.get(k)`: query-string access returning `None` when absent. -/
def argsGet (args : List (String × String)) (k : String) : Option String :=
  (args.find? (fun kv => kv.1 == k)).map (fun kv => kv.2)

/-- A Python value that is a string or `None`, as bound into query params. -/
def jsonOfOptStr : Option String → Json
  | some s => Json.str s
  | none => Json.null

/-- The `/visualize` handler: reads `user_name` with `args.get` (so an absent
tenant id yields `None`, not an error), always issues the parameter-bound
query and answers 200 with the rendered chart. -/
def visualize (cfg : Config) (args : List (String × String)) : QueryCall × Nat :=
  ({ flux := query_flux
     org := cfg.organization_name
     params := [("bucket_name", Json.str bucket_name),
                ("user_id", jsonOfOptStr (argsGet args "user_name"))] }, 200)

/-- A bucket descriptor: name and retention policy (`bucket.rp`). -/
structure Bucket where
  name : String
  rp : String
  deriving Repr, DecidableEq

/-- The retention policy a bucket receives when created without explicit
retention rules (`create_bucket(bucket_name=...)`): the engine default. -/
def default_retention : String := "default"

/-- Collaborator-side state for the bucket lifecycle: the buckets of the
organization and whether the token has permission (false makes the buckets
API answer 401). -/
structure EngineState where
  buckets : List Bucket
  canRead : Bool
  deriving Repr, DecidableEq

/-- Outcome of `buckets_api().find_bucket_by_name`, behaving as the
collaborator interface specifies: the bucket when present, an ApiException
with status 404 when absent, 401 when the token lacks permission. -/
inductive LookupOutcome where
  | found (b : Bucket)
  | apiError (status : Nat)
  deriving Repr, DecidableEq

def find_bucket_by_name (s : EngineState) (name : String) : LookupOutcome :=
  if s.canRead then
    match s.buckets.find? (fun b => b.name == name) with
    | some b => LookupOutcome.found b
    | none => LookupOutcome.apiError 404
  else LookupOutcome.apiError 401

/-- `buckets_api().create_bucket(bucket_name=name)`: adds a bucket with the
default retention policy. -/
def create_bucket (s : EngineState) (name : String) : EngineState :=
  { s with buckets := s.buckets ++ [⟨name, default_retention⟩] }

/-- Observable outcome of `find_or_create_bucket`. -/
inductive EnsureOutcome where
  /-- lookup succeeded: the existing descriptor was printed, nothing created -/
  | foundExisting (b : Bucket)
  /-- ApiException with status 404: the bucket was created -/
  | createdNew
  /-- ApiException with status 401: `exit()` — the whole process aborts -/
  | processExit
  /-- ApiException with another status: caught and silently ignored -/
  | fellThrough
  deriving Repr, DecidableEq

/-- `find_or_create_bucket(bucket_to_find_or_create)`: try the lookup; on
`ApiException e`, first `if e.status == 404` create the bucket, then
`if e.status == 401` call `exit()` (two independent tests, as in the source). -/
def find_or_create_bucket (s : EngineState) (name : String) : EngineState × EnsureOutcome :=
  match find_bucket_by_name s name with
  | LookupOutcome.found b => (s, EnsureOutcome.foundExisting b)
  | LookupOutcome.apiError st =>
    let s1 := if st = 404 then create_bucket s name else s
    if st = 401 then (s1, EnsureOutcome.processExit)
    else if st = 404 then (s1, EnsureOutcome.createdNew)
    else (s1, EnsureOutcome.fellThrough)

/-- Number of buckets carrying a given name. -/
def countNamed (l : List Bucket) (name : String) : Nat :=
  l.countP (fun b => b.name == name)

/-- Outcome of the `__main__` block: provision the primary bucket, then serve. -/
inductive StartupResult where
  | serving (s : EngineState)
  | processExit
  deriving Repr, DecidableEq

def startup (s : EngineState) : StartupResult :=
  match find_or_create_bucket s bucket_name with
  | (_, EnsureOutcome.processExit) => StartupResult.processExit
  | (s1, _) => StartupResult.serving s1

/-- Literal segments of the triple-quoted task template in `/tasks`, with the
doubled braces unescaped.  The template text between the placeholders is
fixed: it carries the task name suffix, the schedule `every: 1m`, the source
bucket reference and the sink `to(bucket: "processed_data_bucket")`. -/
def taskFluxA : String := "\noption task = \x7bname: \""

def taskFluxB : String := "_task\", every: 1m\x7d\n\n from(bucket: \""

def taskFluxC : String := "\")\n |> range(start: -1m)\n |> filter(fn: (r) => r.user_id == \""

def taskFluxD : String := "\")\n |> filter(fn: (r) => r._value == 0.0)\n |> to(bucket: \"processed_data_bucket\")\n    "

/-- `query.format(user_id, bucket_name, user_id)`: the three placeholders are
filled in order with the tenant id, the source bucket constant, and the
tenant id again — plain string interpolation. -/
def renderedTaskFlux (user_id : String) : String :=
  taskFluxA ++ user_id ++ taskFluxB ++ bucket_name ++ taskFluxC ++ user_id ++ taskFluxD

/-- The REST call `requests.post(urljoin(host, "/api/v2/tasks"), ...)` with
body `\x7b"flux": q, "org": organization_name\x7d`. -/
structure TaskPost where
  path : String
  flux : String
  org : String
  deriving Repr, DecidableEq

/-- The collaborator response to the task-creation call: its status code, its
body text, and `json.loads(text)["id"]` (only consulted on 201). -/
structure TaskApiResp where
  status_code : Nat
  text : String
  parsedId : String
  deriving Repr, DecidableEq

/-- What the `/tasks` handler hands back to the framework. -/
inductive TasksResult where
  /-- `(\x7b"task_id": r["id"]\x7d, 201)` -/
  | taskCreated (id : String)
  /-- `(response.text, response.status_code)` -/
  | passthrough (text : String) (status : Nat)
  /-- uncaught KeyError reading the body -/
  | keyError (k : String)
  /-- the process aborted inside `find_or_create_bucket` -/
  | processExit
  deriving Repr, DecidableEq

/-- The `/tasks` handler: first `find_or_create_bucket("processed_data_bucket")`
(aborting the process if that exits), then read `user_id`, render the task
flux by interpolation, POST it, and map the collaborator response: 201 gives
`\x7b"task_id"\x7d`/201, anything else is passed through unchanged.  Returns
the engine state after the ensure step, the POST issued (if any), and the
handler result. -/
def tasksHandler (cfg : Config) (s : EngineState) (body : JsonObj) (resp : TaskApiResp) :
    EngineState × Option TaskPost × TasksResult :=
  match find_or_create_bucket s "processed_data_bucket" with
  | (s1, EnsureOutcome.processExit) => (s1, none, TasksResult.processExit)
  | (s1, _) =>
    match jsonLookup body "user_id" with
    | Except.error k => (s1, none, TasksResult.keyError k)
    | Except.ok uid =>
      let q := renderedTaskFlux (pyStr uid)
      let post : TaskPost := ⟨"/api/v2/tasks", q, cfg.organization_name⟩
      if resp.status_code = 201 then (s1, some post, TasksResult.taskCreated resp.parsedId)
      else (s1, some post, TasksResult.passthrough resp.text resp.status_code)

/-- One row of the usage query result: `record["_measurement"]` and
`record["_value"]` as the text interpolated into the report. -/
structure UsageRecord where
  measurement : String
  value : String
  deriving Repr, DecidableEq

/-- One run from `tasks_api.get_runs(task.id, limit=1)`. -/
structure TaskRun where
  started_at : String
  status : String
  deriving Repr, DecidableEq

/-- One task from `tasks_api.find_tasks()`. -/
structure TaskInfo where
  id : String
  name : String
  status : String
  deriving Repr, DecidableEq

/-- The usage-section header emitted by `/monitor`. -/
def usageHeader : String :=
  "<H1>usage</H1><TABLE><TR><TH>usage type</TH><TH>value</TH></TR>"

/-- The task-section header emitted by `/monitor`. -/
def tasksHeader : String :=
  "<H1>tasks</H1><TABLE><TR><TH>name</TH><TH>status</TH><TH>last run</TH><TH>last run status</TH></TR>"

def usageRow (r : UsageRecord) : String :=
  "<TR><TD>" ++ r.measurement ++ "</TD><TD>" ++ r.value ++ "</TD></TR>"

def taskRow (t : TaskInfo) (started_at run_status : String) : String :=
  "<TR><TD>" ++ t.name ++ "</TD><TD>" ++ t.status ++ "</TD><TD>" ++ started_at ++
    "</TD><TD>" ++ run_status ++ "</TD></TR></BR>"

/-- The `/monitor` handler: formats the usage tables, then the task inventory
(for each active task the most recent run, empty cells otherwise), appends a
"no tasks" row when the inventory is empty, and answers 200.  The two
collaborator reads are the `tables`/`tasks` arguments; `get_runs t.id` is the
(at most one-element) run list the collaborator returns for task `t`. -/
def monitor (tables : List (List UsageRecord)) (tasks : List TaskInfo)
    (get_runs : String → List TaskRun) : String × Nat :=
  let h1 := usageHeader ++ String.join (tables.map (fun t => String.join (t.map usageRow)))
  let h2 := h1 ++ "</TABLE>" ++ tasksHeader
  let h3 := h2 ++ String.join (tasks.map (fun task =>
    let sr : String × String :=
      if task.status = "active" then
        match get_runs task.id with
        | [] => ("", "")
        | run :: _ => (run.started_at, run.status)
      else ("", "")
    taskRow task sr.1 sr.2))
  let h4 := if tasks.length = 0 then h3 ++ "<TR><TD>no tasks</TD><TR>" else h3
  (h4 ++ "</TABLE>", 200)

/-- Concrete configuration used by closed-instance theorems. -/
def cfg0 : Config := ⟨"my-org", "http://localhost:8086", "my-token"⟩

/-- Concrete engine state with no buckets and a valid token. -/
def state0 : EngineState := ⟨[], true⟩

/-- Concrete engine state whose token lacks permission. -/
def stateNoPerm : EngineState := ⟨[], false⟩

/-- Concrete collaborator response to a task-creation call. -/
def resp0 : TaskApiResp := ⟨201, "\x7b\"id\": \"t123\"\x7d", "t123"⟩

/-- Concrete well-formed ingest body. -/
def bodyFull : JsonObj :=
  [("user_id", Json.str "user1"), ("measurement", Json.str "m1"), ("field1", Json.num 1)]

/-- Concrete ingest body missing the tenant id. -/
def bodyNoUser : JsonObj := [("measurement", Json.str "m1"), ("field1", Json.num 1)]

/-!  ## Theorems about the claims -/

/-- C9: `/monitor` returns a valid, non-error report (HTTP 200) whenever either
read yields zero rows: it always answers 200, and on zero usage rows and zero
tasks the report still contains the (empty) usage and task sections, with the
"no tasks" placeholder row, rather than failing. -/
theorem monitor_empty_report :
    (∀ tables tasks g, (monitor tables tasks g).2 = 200) ∧
    (∀ g, monitor [] [] g =
      (usageHeader ++ "</TABLE>" ++ tasksHeader ++ "<TR><TD>no tasks</TD><TR>" ++ "</TABLE>", 200)) := by
  refine ⟨fun tables tasks g => rfl, fun g => ?_⟩
  rfl

/-- Helper: whenever the three body lookups succeed, `ingest` issues exactly
the write call of the source — primary bucket, configured organization, and
the point built from the body — whatever the write outcome. -/
theorem ingest_ok_call (cfg : Config) (body : JsonObj) (wr : WriteOutcome) (now : Nat)
    (u m v : Json)
    (hu : jsonLookup body "user_id" = Except.ok u)
    (hm : jsonLookup body "measurement" = Except.ok m)
    (hv : jsonLookup body "field1" = Except.ok v) :
    ∃ r, ingest cfg body wr now =
      Except.ok (⟨bucket_name, cfg.organization_name, buildPoint m v u now⟩, r) := by
  unfold ingest
  rw [hu, hm, hv]
  cases wr with
  | success => exact ⟨_, rfl⟩
  | influxError s =>
    by_cases h1 : s = "401"
    · exact ⟨_, by show (if s = "401" then _ else _) = _; rw [if_pos h1]⟩
    · by_cases h2 : s = "404"
      · exact ⟨_, by show (if s = "401" then _ else _) = _; rw [if_neg h1, if_pos h2]⟩
      · exact ⟨_, by show (if s = "401" then _ else _) = _; rw [if_neg h1, if_neg h2]⟩

/-- C8: for every valid ingestion payload, the Point built by the `ingest`
handler has exactly one measurement, exactly one field, a UTC nanosecond
timestamp that is ≤ the current time, and a tag set containing the requesting
tenant id. -/
theorem ingest_point_shape (cfg : Config) (body : JsonObj) (wr : WriteOutcome) (now : Nat)
    (u m v : Json)
    (hu : jsonLookup body "user_id" = Except.ok u)
    (hm : jsonLookup body "measurement" = Except.ok m)
    (hv : jsonLookup body "field1" = Except.ok v) :
    ∃ wc r, ingest cfg body wr now = Except.ok (wc, r) ∧
      wc.point.measurement = m ∧
      wc.point.fields = [("field1", v)] ∧
      wc.point.fields.length = 1 ∧
      ("user_id", u) ∈ wc.point.tags ∧
      wc.point.time = now ∧ wc.point.time ≤ now ∧
      wc.point.precision = WritePrecision.NS := by
  obtain ⟨r, h⟩ := ingest_ok_call cfg body wr now u m v hu hm hv
  exact ⟨_, r, h, rfl, rfl, rfl, List.mem_singleton.mpr rfl, rfl, Nat.le_refl _, rfl⟩

theorem ingest_point_shape_witness :
    jsonLookup bodyFull "user_id" = Except.ok (Json.str "user1") ∧
    jsonLookup bodyFull "measurement" = Except.ok (Json.str "m1") ∧
    jsonLookup bodyFull "field1" = Except.ok (Json.num 1) ∧
    (∃ wc r, ingest cfg0 bodyFull WriteOutcome.success 7 = Except.ok (wc, r) ∧
      wc.point.measurement = Json.str "m1" ∧
      wc.point.fields = [("field1", Json.num 1)] ∧
      wc.point.fields.length = 1 ∧
      ("user_id", Json.str "user1") ∈ wc.point.tags ∧
      wc.point.time = 7 ∧ wc.point.time ≤ 7 ∧
      wc.point.precision = WritePrecision.NS) :=
  ⟨rfl, rfl, rfl, ingest_point_shape cfg0 bodyFull WriteOutcome.success 7 _ _ _ rfl rfl rfl⟩

/-- C4 counterexample: a collaborator write failure whose status is neither
"401" nor "404" (here "500") makes the `ingest` handler fall off its end and
return no response at all — it is not mapped to a 500 response with an
error body, contradicting the claim that every caught collaborator error is
mapped to some HTTP status/body. -/
theorem ingest_error_500_no_response :
    ingest cfg0 bodyFull (WriteOutcome.influxError "500") 7 =
      Except.ok (⟨bucket_name, cfg0.organization_name,
        buildPoint (Json.str "m1") (Json.num 1) (Json.str "user1") 7⟩,
        IngestResponse.noResponse) := by
  rfl

/-- C4 amended: on write success `ingest` returns 200 with the result body;
a collaborator failure with status "401" or "404" is mapped to an error body
carrying that status; any other write failure (e.g. "500") is caught but
produces no response — the handler returns None. -/
theorem ingest_error_mapping_amended (cfg : Config) (body : JsonObj) (now : Nat) (u m v : Json)
    (hu : jsonLookup body "user_id" = Except.ok u)
    (hm : jsonLookup body "measurement" = Except.ok m)
    (hv : jsonLookup body "field1" = Except.ok v) :
    ingest cfg body WriteOutcome.success now =
      Except.ok (⟨bucket_name, cfg.organization_name, buildPoint m v u now⟩,
        IngestResponse.resultOk) ∧
    ingest cfg body (WriteOutcome.influxError "401") now =
      Except.ok (⟨bucket_name, cfg.organization_name, buildPoint m v u now⟩,
        IngestResponse.errorResp "Insufficent permissions" "401") ∧
    ingest cfg body (WriteOutcome.influxError "404") now =
      Except.ok (⟨bucket_name, cfg.organization_name, buildPoint m v u now⟩,
        IngestResponse.errorResp ("Bucket " ++ bucket_name ++ " does not exist") "404") ∧
    (∀ st : String, st ≠ "401" → st ≠ "404" →
      ingest cfg body (WriteOutcome.influxError st) now =
        Except.ok (⟨bucket_name, cfg.organization_name, buildPoint m v u now⟩,
          IngestResponse.noResponse)) := by
  unfold ingest
  rw [hu, hm, hv]
  refine ⟨rfl, rfl, rfl, fun st h1 h2 => ?_⟩
  simp only [if_neg h1, if_neg h2]

theorem ingest_error_mapping_amended_witness :
    jsonLookup bodyFull "user_id" = Except.ok (Json.str "user1") ∧
    (ingest cfg0 bodyFull WriteOutcome.success 7 =
      Except.ok (⟨bucket_name, cfg0.organization_name,
        buildPoint (Json.str "m1") (Json.num 1) (Json.str "user1") 7⟩,
        IngestResponse.resultOk) ∧
    ingest cfg0 bodyFull (WriteOutcome.influxError "401") 7 =
      Except.ok (⟨bucket_name, cfg0.organization_name,
        buildPoint (Json.str "m1") (Json.num 1) (Json.str "user1") 7⟩,
        IngestResponse.errorResp "Insufficent permissions" "401") ∧
    ingest cfg0 bodyFull (WriteOutcome.influxError "404") 7 =
      Except.ok (⟨bucket_name, cfg0.organization_name,
        buildPoint (Json.str "m1") (Json.num 1) (Json.str "user1") 7⟩,
        IngestResponse.errorResp ("Bucket " ++ bucket_name ++ " does not exist") "404") ∧
    (∀ st : String, st ≠ "401" → st ≠ "404" →
      ingest cfg0 bodyFull (WriteOutcome.influxError st) 7 =
        Except.ok (⟨bucket_name, cfg0.organization_name,
          buildPoint (Json.str "m1") (Json.num 1) (Json.str "user1") 7⟩,
          IngestResponse.noResponse))) :=
  ⟨rfl, ingest_error_mapping_amended cfg0 bodyFull 7 _ _ _ rfl rfl rfl⟩

/-- C6 counterexample: a body missing the required `user_id` makes `ingest`
raise an uncaught KeyError (the framework then answers 500), not a
ValidationError mapped to 400; and a non-numeric `field1` value is not
rejected — the Point is built with the string value and handed to the write,
which answers 200. -/
theorem ingest_no_validation :
    ingest cfg0 bodyNoUser WriteOutcome.success 7 = Except.error "user_id" ∧
    ingest cfg0 [("user_id", Json.str "user1"), ("measurement", Json.str "m1"),
        ("field1", Json.str "not a number")] WriteOutcome.success 7 =
      Except.ok (⟨bucket_name, cfg0.organization_name,
        buildPoint (Json.str "m1") (Json.str "not a number") (Json.str "user1") 7⟩,
        IngestResponse.resultOk) :=
  ⟨rfl, rfl⟩

/-- Helper: a `jsonLookup` failure always carries exactly the looked-up key —
a Python `KeyError k` names the missing key `k`. -/
theorem jsonLookup_error_eq (body : JsonObj) (k k1 : String)
    (h : jsonLookup body k = Except.error k1) : k1 = k := by
  unfold jsonLookup at h
  cases hf : body.find? (fun kv => kv.1 == k) with
  | some kv =>
    rw [hf] at h
    exact Except.noConfusion h
  | none =>
    rw [hf] at h
    injection h with h1
    exact h1.symm

/-- C6 amended: for every ingestion input missing a required attribute
(tenant id, measurement, or field value), the handler fails with an uncaught
KeyError naming the first missing attribute (surfaced by the framework as
500, not ValidationError/400) and builds no Point; a non-numeric field value
of any JSON type is not validated — the Point is built with it and the write
is attempted. -/
theorem ingest_validation_amended (cfg : Config) (body1 body2 : JsonObj)
    (wr : WriteOutcome) (now : Nat) (u m v : Json)
    (hmiss : jsonLookup body1 "user_id" = Except.error "user_id" ∨
             jsonLookup body1 "measurement" = Except.error "measurement" ∨
             jsonLookup body1 "field1" = Except.error "field1")
    (hu : jsonLookup body2 "user_id" = Except.ok u)
    (hm : jsonLookup body2 "measurement" = Except.ok m)
    (hv : jsonLookup body2 "field1" = Except.ok v)
    (hnonnum : ∀ n : Int, v ≠ Json.num n) :
    (∃ k, k ∈ ["user_id", "measurement", "field1"] ∧
      ingest cfg body1 wr now = Except.error k) ∧
    ∃ wc r, ingest cfg body2 wr now = Except.ok (wc, r) ∧
      wc.point.fields = [("field1", v)] := by
  constructor
  · cases h1 : jsonLookup body1 "user_id" with
    | error k =>
      cases jsonLookup_error_eq body1 "user_id" k h1
      refine ⟨"user_id", by simp, ?_⟩
      unfold ingest
      rw [h1]
    | ok u1 =>
      cases h2 : jsonLookup body1 "measurement" with
      | error k =>
        cases jsonLookup_error_eq body1 "measurement" k h2
        refine ⟨"measurement", by simp, ?_⟩
        unfold ingest
        rw [h1, h2]
      | ok m1 =>
        cases h3 : jsonLookup body1 "field1" with
        | error k =>
          cases jsonLookup_error_eq body1 "field1" k h3
          refine ⟨"field1", by simp, ?_⟩
          unfold ingest
          rw [h1, h2, h3]
        | ok v1 =>
          rcases hmiss with h | h | h
          · rw [h1] at h
            exact Except.noConfusion h
          · rw [h2] at h
            exact Except.noConfusion h
          · rw [h3] at h
            exact Except.noConfusion h
  · obtain ⟨r, h⟩ := ingest_ok_call cfg body2 wr now u m v hu hm hv
    exact ⟨_, r, h, rfl⟩

theorem ingest_validation_amended_witness :
    (jsonLookup bodyNoUser "user_id" = Except.error "user_id" ∨
     jsonLookup bodyNoUser "measurement" = Except.error "measurement" ∨
     jsonLookup bodyNoUser "field1" = Except.error "field1") ∧
    (∀ n : Int, Json.str "abc" ≠ Json.num n) ∧
    ((∃ k, k ∈ ["user_id", "measurement", "field1"] ∧
      ingest cfg0 bodyNoUser WriteOutcome.success 7 = Except.error k) ∧
     ∃ wc r, ingest cfg0 [("user_id", Json.str "user1"), ("measurement", Json.str "m1"),
        ("field1", Json.str "abc")] WriteOutcome.success 7 = Except.ok (wc, r) ∧
      wc.point.fields = [("field1", Json.str "abc")]) :=
  ⟨Or.inl rfl, fun n h => Json.noConfusion h,
    ingest_validation_amended cfg0 bodyNoUser
      [("user_id", Json.str "user1"), ("measurement", Json.str "m1"), ("field1", Json.str "abc")]
      WriteOutcome.success 7 _ _ (Json.str "abc") (Or.inl rfl) rfl rfl rfl
      (fun n h => Json.noConfusion h)⟩

/-- C7 counterexample: `/visualize` with no `user_name` argument does not fail
with ValidationError and does send a query to the collaborator — the query
call is issued with the tenant id bound to null, and the handler answers
200. -/
theorem visualize_absent_tenant_sends_query :
    visualize cfg0 [] =
      ({ flux := query_flux
         org := cfg0.organization_name
         params := [("bucket_name", Json.str bucket_name), ("user_id", Json.null)] }, 200) :=
  rfl

/-- C7 amended: with the tenant id absent, `/query` fails with an uncaught
KeyError (framework 500, not ValidationError/400) and sends no query, while
`/visualize` does not fail at all — it sends the query with the `user_id`
parameter bound to null and answers 200. -/
theorem absent_tenant_amended (cfg : Config) (body : JsonObj) (args : List (String × String))
    (hmiss : jsonLookup body "user_id" = Except.error "user_id")
    (hargs : argsGet args "user_name" = none) :
    queryHandler cfg body = Except.error "user_id" ∧
    visualize cfg args =
      ({ flux := query_flux
         org := cfg.organization_name
         params := [("bucket_name", Json.str bucket_name), ("user_id", Json.null)] }, 200) := by
  constructor
  · unfold queryHandler
    rw [hmiss]
  · unfold visualize
    rw [hargs]
    rfl

/-- Helper: with a valid token, `find_or_create_bucket` either returns the
found bucket leaving the state unchanged, or — on the 404 path — creates the
bucket and returns. -/
theorem ensure_with_permission (s : EngineState) (name : String) (hperm : s.canRead = true) :
    (∀ b, s.buckets.find? (fun x => x.name == name) = some b →
      find_or_create_bucket s name = (s, EnsureOutcome.foundExisting b)) ∧
    (s.buckets.find? (fun x => x.name == name) = none →
      find_or_create_bucket s name = (create_bucket s name, EnsureOutcome.createdNew)) := by
  constructor
  · intro b hb
    unfold find_or_create_bucket find_bucket_by_name
    rw [hperm, hb]
    rfl
  · intro hb
    unfold find_or_create_bucket find_bucket_by_name
    rw [hperm, hb]
    rfl

/-- Helper: once the ensure step has completed without aborting and the body
carries a string tenant id, the `/tasks` handler posts the interpolated flux
and maps the collaborator response by its status code. -/
theorem tasksHandler_after_ensure (cfg : Config) (s s1 : EngineState) (body : JsonObj)
    (resp : TaskApiResp) (u : String) (out : EnsureOutcome)
    (hfoc : find_or_create_bucket s "processed_data_bucket" = (s1, out))
    (hout : out ≠ EnsureOutcome.processExit)
    (huid : jsonLookup body "user_id" = Except.ok (Json.str u)) :
    tasksHandler cfg s body resp =
      (s1, some ⟨"/api/v2/tasks", renderedTaskFlux u, cfg.organization_name⟩,
       if resp.status_code = 201 then TasksResult.taskCreated resp.parsedId
       else TasksResult.passthrough resp.text resp.status_code) := by
  unfold tasksHandler
  rw [hfoc, huid]
  cases out with
  | processExit => exact absurd rfl hout
  | foundExisting b => by_cases hs : resp.status_code = 201 <;> simp [hs, pyStr]
  | createdNew => by_cases hs : resp.status_code = 201 <;> simp [hs, pyStr]
  | fellThrough => by_cases hs : resp.status_code = 201 <;> simp [hs, pyStr]

theorem absent_tenant_amended_witness :
    jsonLookup bodyNoUser "user_id" = Except.error "user_id" ∧
    argsGet [] "user_name" = none ∧
    (queryHandler cfg0 bodyNoUser = Except.error "user_id" ∧
     visualize cfg0 [] =
      ({ flux := query_flux
         org := cfg0.organization_name
         params := [("bucket_name", Json.str bucket_name), ("user_id", Json.null)] }, 200)) :=
  ⟨rfl, rfl, absent_tenant_amended cfg0 bodyNoUser [] rfl rfl⟩

/-- C2: `find_or_create_bucket` is idempotent: with a valid token, if the
lookup finds the bucket the state is unchanged and the found descriptor is
returned; if the lookup reports not-found the bucket is created with the
default retention policy; calling again converges — exactly one bucket with
that name remains, the second call changes nothing, finds the bucket and
does not error. -/
theorem ensure_idempotent (s : EngineState) (name : String)
    (hperm : s.canRead = true) (hcount : countNamed s.buckets name ≤ 1) :
    (∀ b, s.buckets.find? (fun x => x.name == name) = some b →
      find_or_create_bucket s name = (s, EnsureOutcome.foundExisting b)) ∧
    (s.buckets.find? (fun x => x.name == name) = none →
      find_or_create_bucket s name = (create_bucket s name, EnsureOutcome.createdNew) ∧
      (create_bucket s name).buckets = s.buckets ++ [⟨name, default_retention⟩]) ∧
    countNamed (find_or_create_bucket s name).1.buckets name = 1 ∧
    (∃ b, b.name = name ∧
      find_or_create_bucket (find_or_create_bucket s name).1 name =
        ((find_or_create_bucket s name).1, EnsureOutcome.foundExisting b)) := by
  obtain ⟨hsome, hnone⟩ := ensure_with_permission s name hperm
  cases hf : s.buckets.find? (fun x => x.name == name) with
  | some b =>
    have hfoc := hsome b hf
    have hbname : b.name = name := by
      have := List.find?_some hf
      simpa using this
    have hpos : 0 < countNamed s.buckets name :=
      List.countP_pos_iff.mpr ⟨b, List.mem_of_find?_eq_some hf, by simpa using hbname⟩
    refine ⟨?_, ?_, ?_, ?_⟩
    · intro b1 hb1
      injection hb1 with hbb
      subst hbb
      exact hfoc
    · intro h0
      exact Option.noConfusion h0
    · rw [hfoc]
      exact Nat.le_antisymm hcount hpos
    · refine ⟨b, hbname, ?_⟩
      rw [hfoc]
      exact hsome b hf
  | none =>
    have hfoc := hnone hf
    have hzero : s.buckets.countP (fun x => x.name == name) = 0 := by
      rw [List.countP_eq_zero]
      intro a ha
      exact List.find?_eq_none.mp hf a ha
    have hfind2 : (create_bucket s name).buckets.find? (fun x => x.name == name) =
        some ⟨name, default_retention⟩ := by
      show List.find? (fun x : Bucket => x.name == name)
          (s.buckets ++ [(⟨name, default_retention⟩ : Bucket)]) =
        some ⟨name, default_retention⟩
      rw [List.find?_append, hf]
      simp
    refine ⟨?_, ?_, ?_, ?_⟩
    · intro b1 hb1
      exact Option.noConfusion hb1
    · intro _
      exact ⟨hfoc, rfl⟩
    · rw [hfoc]
      show countNamed (s.buckets ++ [⟨name, default_retention⟩]) name = 1
      rw [countNamed, List.countP_append, hzero]
      simp
    · refine ⟨⟨name, default_retention⟩, rfl, ?_⟩
      rw [hfoc]
      exact (ensure_with_permission (create_bucket s name) name hperm).1
        ⟨name, default_retention⟩ hfind2

theorem ensure_idempotent_witness :
    state0.canRead = true ∧ countNamed state0.buckets "processed_data_bucket" ≤ 1 ∧
    ((∀ b, state0.buckets.find? (fun x => x.name == "processed_data_bucket") = some b →
      find_or_create_bucket state0 "processed_data_bucket" = (state0, EnsureOutcome.foundExisting b)) ∧
    (state0.buckets.find? (fun x => x.name == "processed_data_bucket") = none →
      find_or_create_bucket state0 "processed_data_bucket" =
        (create_bucket state0 "processed_data_bucket", EnsureOutcome.createdNew) ∧
      (create_bucket state0 "processed_data_bucket").buckets =
        state0.buckets ++ [⟨"processed_data_bucket", default_retention⟩]) ∧
    countNamed (find_or_create_bucket state0 "processed_data_bucket").1.buckets
      "processed_data_bucket" = 1 ∧
    (∃ b, b.name = "processed_data_bucket" ∧
      find_or_create_bucket (find_or_create_bucket state0 "processed_data_bucket").1
          "processed_data_bucket" =
        ((find_or_create_bucket state0 "processed_data_bucket").1,
          EnsureOutcome.foundExisting b))) :=
  ⟨rfl, by decide, ensure_idempotent state0 "processed_data_bucket" rfl (by decide)⟩

/-- C3 counterexample: with a token lacking permission, the mid-request ensure
call inside the `/tasks` handler hits the 401 branch and calls `exit()` — the
whole process aborts; the permission error is not a recoverable per-request
error. -/
theorem midrequest_auth_error_aborts :
    tasksHandler cfg0 stateNoPerm [("user_id", Json.str "user1")] resp0 =
      (stateNoPerm, none, TasksResult.processExit) := rfl

/-- C3 amended: a permission (401) error from the bucket lookup is always
fatal: it aborts the process during startup-time provisioning of the primary
bucket, and it equally aborts the process when `find_or_create_bucket` is
invoked mid-request from task registration — the handler produces no
recoverable per-request error. -/
theorem auth_error_always_fatal (cfg : Config) (s : EngineState) (body : JsonObj)
    (resp : TaskApiResp) (h : s.canRead = false) :
    find_or_create_bucket s bucket_name = (s, EnsureOutcome.processExit) ∧
    startup s = StartupResult.processExit ∧
    tasksHandler cfg s body resp = (s, none, TasksResult.processExit) := by
  have hf : ∀ name, find_or_create_bucket s name = (s, EnsureOutcome.processExit) := by
    intro name
    unfold find_or_create_bucket find_bucket_by_name
    rw [h]
    rfl
  refine ⟨hf _, ?_, ?_⟩
  · unfold startup
    rw [hf bucket_name]
  · unfold tasksHandler
    rw [hf "processed_data_bucket"]

theorem auth_error_always_fatal_witness :
    stateNoPerm.canRead = false ∧
    (find_or_create_bucket stateNoPerm bucket_name = (stateNoPerm, EnsureOutcome.processExit) ∧
     startup stateNoPerm = StartupResult.processExit ∧
     tasksHandler cfg0 stateNoPerm bodyFull resp0 = (stateNoPerm, none, TasksResult.processExit)) :=
  ⟨rfl, auth_error_always_fatal cfg0 stateNoPerm bodyFull resp0 rfl⟩

/-- C5: the `/tasks` handler first ensures the sink bucket (the resulting
state is the ensure step's state and contains `processed_data_bucket`), then
renders the task definition from the template — substituting the tenant id
into the task name and the filter predicate and the source bucket constant,
around fixed template text carrying the sink bucket, the 1m schedule and the
predicate — then submits it to the collaborator's task-creation call; it
returns the assigned task id with 201 when the collaborator answers 201, and
otherwise passes the collaborator's status and body through unchanged. -/
theorem tasks_register_sequence (cfg : Config) (s : EngineState) (body : JsonObj)
    (resp : TaskApiResp) (u : String)
    (hperm : s.canRead = true)
    (huid : jsonLookup body "user_id" = Except.ok (Json.str u)) :
    (tasksHandler cfg s body resp).1 = (find_or_create_bucket s "processed_data_bucket").1 ∧
    (∃ b ∈ (tasksHandler cfg s body resp).1.buckets, b.name = "processed_data_bucket") ∧
    (tasksHandler cfg s body resp).2.1 =
      some ⟨"/api/v2/tasks", renderedTaskFlux u, cfg.organization_name⟩ ∧
    (resp.status_code = 201 →
      (tasksHandler cfg s body resp).2.2 = TasksResult.taskCreated resp.parsedId) ∧
    (resp.status_code ≠ 201 →
      (tasksHandler cfg s body resp).2.2 = TasksResult.passthrough resp.text resp.status_code) ∧
    renderedTaskFlux u =
      taskFluxA ++ u ++ taskFluxB ++ bucket_name ++ taskFluxC ++ u ++ taskFluxD := by
  obtain ⟨hsome, hnone⟩ := ensure_with_permission s "processed_data_bucket" hperm
  cases hf : s.buckets.find? (fun x => x.name == "processed_data_bucket") with
  | some b =>
    have hfoc := hsome b hf
    have ht := tasksHandler_after_ensure cfg s s body resp u (EnsureOutcome.foundExisting b)
      hfoc (by intro hcon; cases hcon) huid
    have hbname : b.name = "processed_data_bucket" := by
      have := List.find?_some hf
      simpa using this
    refine ⟨?_, ?_, ?_, ?_, ?_, rfl⟩
    · rw [ht, hfoc]
    · rw [ht]
      exact ⟨b, List.mem_of_find?_eq_some hf, hbname⟩
    · rw [ht]
    · intro hs
      rw [ht]
      show (if resp.status_code = 201 then _ else _) = _
      rw [if_pos hs]
    · intro hs
      rw [ht]
      show (if resp.status_code = 201 then _ else _) = _
      rw [if_neg hs]
  | none =>
    have hfoc := hnone hf
    have ht := tasksHandler_after_ensure cfg s (create_bucket s "processed_data_bucket") body
      resp u EnsureOutcome.createdNew hfoc (by intro hcon; cases hcon) huid
    refine ⟨?_, ?_, ?_, ?_, ?_, rfl⟩
    · rw [ht, hfoc]
    · rw [ht]
      exact ⟨⟨"processed_data_bucket", default_retention⟩,
        List.mem_append_right _ (List.mem_singleton.mpr rfl), rfl⟩
    · rw [ht]
    · intro hs
      rw [ht]
      show (if resp.status_code = 201 then _ else _) = _
      rw [if_pos hs]
    · intro hs
      rw [ht]
      show (if resp.status_code = 201 then _ else _) = _
      rw [if_neg hs]

theorem tasks_register_sequence_witness :
    state0.canRead = true ∧
    jsonLookup [("user_id", Json.str "user1")] "user_id" = Except.ok (Json.str "user1") ∧
    ((tasksHandler cfg0 state0 [("user_id", Json.str "user1")] resp0).1 =
      (find_or_create_bucket state0 "processed_data_bucket").1 ∧
    (∃ b ∈ (tasksHandler cfg0 state0 [("user_id", Json.str "user1")] resp0).1.buckets,
      b.name = "processed_data_bucket") ∧
    (tasksHandler cfg0 state0 [("user_id", Json.str "user1")] resp0).2.1 =
      some ⟨"/api/v2/tasks", renderedTaskFlux "user1", cfg0.organization_name⟩ ∧
    (resp0.status_code = 201 →
      (tasksHandler cfg0 state0 [("user_id", Json.str "user1")] resp0).2.2 =
        TasksResult.taskCreated resp0.parsedId) ∧
    (resp0.status_code ≠ 201 →
      (tasksHandler cfg0 state0 [("user_id", Json.str "user1")] resp0).2.2 =
        TasksResult.passthrough resp0.text resp0.status_code) ∧
    renderedTaskFlux "user1" =
      taskFluxA ++ "user1" ++ taskFluxB ++ bucket_name ++ taskFluxC ++ "user1" ++ taskFluxD) :=
  ⟨rfl, rfl, tasks_register_sequence cfg0 state0 [("user_id", Json.str "user1")] resp0 "user1" rfl rfl⟩

/-- C10: the storage buckets are fixed constants the client can never choose:
every ingest write targets `bucket_name = "raw_data_bucket"`, every range
query binds that same constant, every registered task reads from
`raw_data_bucket` and sinks into `processed_data_bucket` on the fixed
`every: 1m` schedule with a task name derived from the tenant id — only the
tenant id varies with the request, all bucket/schedule text is constant. -/
theorem fixed_buckets_invariant (cfg : Config) (body qbody : JsonObj)
    (wr : WriteOutcome) (now : Nat) (u m v w : Json)
    (hu : jsonLookup body "user_id" = Except.ok u)
    (hm : jsonLookup body "measurement" = Except.ok m)
    (hv : jsonLookup body "field1" = Except.ok v)
    (hq : jsonLookup qbody "user_id" = Except.ok w) :
    bucket_name = "raw_data_bucket" ∧
    (∃ r, ingest cfg body wr now =
      Except.ok (⟨"raw_data_bucket", cfg.organization_name, buildPoint m v u now⟩, r)) ∧
    (queryHandler cfg qbody =
      Except.ok ({ flux := query_flux
                   org := cfg.organization_name
                   params := [("bucket_name", Json.str "raw_data_bucket"), ("user_id", w)] }, 200)) ∧
    (∀ args, (visualize cfg args).1.flux = query_flux ∧
      (visualize cfg args).1.params.head? =
        some ("bucket_name", Json.str "raw_data_bucket")) ∧
    (∀ t : String, renderedTaskFlux t =
      "\noption task = \x7bname: \"" ++ t ++
      "_task\", every: 1m\x7d\n\n from(bucket: \"" ++ "raw_data_bucket" ++
      "\")\n |> range(start: -1m)\n |> filter(fn: (r) => r.user_id == \"" ++ t ++
      "\")\n |> filter(fn: (r) => r._value == 0.0)\n |> to(bucket: \"processed_data_bucket\")\n    ") := by
  refine ⟨rfl, ingest_ok_call cfg body wr now u m v hu hm hv, ?_,
    fun args => ⟨rfl, rfl⟩, fun t => rfl⟩
  unfold queryHandler
  rw [hq]
  rfl

theorem fixed_buckets_invariant_witness :
    jsonLookup bodyFull "user_id" = Except.ok (Json.str "user1") ∧
    (bucket_name = "raw_data_bucket" ∧
    (∃ r, ingest cfg0 bodyFull WriteOutcome.success 7 =
      Except.ok (⟨"raw_data_bucket", cfg0.organization_name,
        buildPoint (Json.str "m1") (Json.num 1) (Json.str "user1") 7⟩, r)) ∧
    (queryHandler cfg0 bodyFull =
      Except.ok ({ flux := query_flux
                   org := cfg0.organization_name
                   params := [("bucket_name", Json.str "raw_data_bucket"),
                              ("user_id", Json.str "user1")] }, 200)) ∧
    (∀ args, (visualize cfg0 args).1.flux = query_flux ∧
      (visualize cfg0 args).1.params.head? =
        some ("bucket_name", Json.str "raw_data_bucket")) ∧
    (∀ t : String, renderedTaskFlux t =
      "\noption task = \x7bname: \"" ++ t ++
      "_task\", every: 1m\x7d\n\n from(bucket: \"" ++ "raw_data_bucket" ++
      "\")\n |> range(start: -1m)\n |> filter(fn: (r) => r.user_id == \"" ++ t ++
      "\")\n |> filter(fn: (r) => r._value == 0.0)\n |> to(bucket: \"processed_data_bucket\")\n    ")) :=
  ⟨rfl, fixed_buckets_invariant cfg0 bodyFull bodyFull WriteOutcome.success 7
    (Json.str "user1") (Json.str "m1") (Json.num 1) (Json.str "user1") rfl rfl rfl rfl⟩

/-- C1 counterexample: the `/tasks` handler hands the collaborator a query
body produced by string interpolation of the tenant id: two different tenant
ids yield different body texts, and a tenant id containing query-injection
syntax (an embedded quote followed by `or ...`) appears as a literal
substring of the posted flux, altering the predicate structure — the rendered
filter becomes `r.user_id == "user1" or r.user_id != ""`. -/
theorem tasks_flux_interpolates_tenant_id :
    (tasksHandler cfg0 state0 [("user_id", Json.str "user1")] resp0).2.1 ≠
      (tasksHandler cfg0 state0 [("user_id", Json.str "user2")] resp0).2.1 ∧
    (tasksHandler cfg0 state0
        [("user_id", Json.str "user1\" or r.user_id != \"")] resp0).2.1 =
      some ⟨"/api/v2/tasks",
        "\noption task = \x7bname: \"user1\" or r.user_id != \"_task\", every: 1m\x7d\n\n from(bucket: \"raw_data_bucket\")\n |> range(start: -1m)\n |> filter(fn: (r) => r.user_id == \"user1\" or r.user_id != \"\")\n |> filter(fn: (r) => r._value == 0.0)\n |> to(bucket: \"processed_data_bucket\")\n    ",
        cfg0.organization_name⟩ := by
  exact ⟨by decide, rfl⟩

/-- C1 amended: the range-query bodies built by `/query` and `/visualize`
carry the tenant id and bucket name only as bound parameters — their body
text is one fixed constant, identical for any two tenant id values — but the
`/tasks` flux body embeds the tenant id (twice) as a literal substring by
string interpolation, so its text varies with the tenant id value. -/
theorem query_binding_amended (cfg : Config) (body1 body2 : JsonObj) (u1 u2 : Json)
    (args : List (String × String))
    (h1 : jsonLookup body1 "user_id" = Except.ok u1)
    (h2 : jsonLookup body2 "user_id" = Except.ok u2) :
    (queryHandler cfg body1 =
      Except.ok ({ flux := query_flux
                   org := cfg.organization_name
                   params := [("bucket_name", Json.str bucket_name), ("user_id", u1)] }, 200)) ∧
    (queryHandler cfg body2 =
      Except.ok ({ flux := query_flux
                   org := cfg.organization_name
                   params := [("bucket_name", Json.str bucket_name), ("user_id", u2)] }, 200)) ∧
    (visualize cfg args).1.flux = query_flux ∧
    (∀ t : String, renderedTaskFlux t =
      taskFluxA ++ t ++ taskFluxB ++ bucket_name ++ taskFluxC ++ t ++ taskFluxD) := by
  refine ⟨?_, ?_, rfl, fun t => rfl⟩
  · unfold queryHandler
    rw [h1]
  · unfold queryHandler
    rw [h2]

theorem query_binding_amended_witness :
    jsonLookup bodyFull "user_id" = Except.ok (Json.str "user1") ∧
    jsonLookup [("user_id", Json.str "evil")] "user_id" = Except.ok (Json.str "evil") ∧
    ((queryHandler cfg0 bodyFull =
      Except.ok ({ flux := query_flux
                   org := cfg0.organization_name
                   params := [("bucket_name", Json.str bucket_name),
                              ("user_id", Json.str "user1")] }, 200)) ∧
    (queryHandler cfg0 [("user_id", Json.str "evil")] =
      Except.ok ({ flux := query_flux
                   org := cfg0.organization_name
                   params := [("bucket_name", Json.str bucket_name),
                              ("user_id", Json.str "evil")] }, 200)) ∧
    (visualize cfg0 []).1.flux = query_flux ∧
    (∀ t : String, renderedTaskFlux t =
      taskFluxA ++ t ++ taskFluxB ++ bucket_name ++ taskFluxC ++ t ++ taskFluxD)) :=
  ⟨rfl, rfl, query_binding_amended cfg0 bodyFull [("user_id", Json.str "evil")]
    (Json.str "user1") (Json.str "evil") [] rfl rfl⟩

end InfluxApp
